import Mathlib

/-!
# Verification of the Asset Integrity GenAI dashboard

Shallow embedding of `asset_integrity_genai_app.py`: the asset generator,
the cost catalog, the advisory client, the risk-coloring helpers and the
per-tab orchestration logic, together with proofs of the specified
properties.

Randomness is modelled by an explicit source `g : Nat → Nat` of raw draws;
`random.randint lo hi` maps a draw into `[lo, hi]` and `random.uniform a b`
maps a draw into `[a, b)` through a fractional part in `[0, 1)`.  Floats are
modelled as rationals; `round(x, 2)` / `round(x, 1)` round to the nearest
multiple of `1/100` / `1/10`.
-/

set_option maxRecDepth 100000

namespace AIM

/-- One row of the simulated asset register (`generate_assets` dict). -/
structure Asset where
  assetID : String
  type : String
  location : String
  ageYears : Nat
  lastMaintDaysAgo : Nat
  degradationPct : ℚ
  status : String
  vibration : ℚ
  temperatureC : ℚ
  corrosionLevel : ℚ
  rulMonths : Nat
  deriving DecidableEq, Repr

instance : Inhabited Asset :=
  ⟨{ assetID := "", type := "", location := "", ageYears := 0,
     lastMaintDaysAgo := 0, degradationPct := 0, status := "",
     vibration := 0, temperatureC := 0, corrosionLevel := 0, rulMonths := 0 }⟩

/-- `random.randint lo hi`: a draw mapped into the inclusive range `[lo, hi]`. -/
def randint (lo hi : Nat) (s : Nat) : Nat :=
  lo + s % (hi - lo + 1)

/-- `random.choice xs`: a draw selecting one element of a nonempty list. -/
def randChoice (xs : List String) (s : Nat) : String :=
  xs.getD (s % xs.length) ""

/-- A draw mapped to a fraction in `[0, 1)` (the `random.random()` output). -/
def unitFrac (s : Nat) : ℚ :=
  (s % 1000000 : Nat) / 1000000

/-- `random.uniform a b = a + (b - a) * random.random()`. -/
def uniform (a b : ℚ) (s : Nat) : ℚ :=
  a + (b - a) * unitFrac s

/-- `round(x, 2)`: nearest multiple of 1/100. -/
def round2 (q : ℚ) : ℚ :=
  (round (q * 100) : ℤ) / 100

/-- `round(x, 1)`: nearest multiple of 1/10. -/
def round1 (q : ℚ) : ℚ :=
  (round (q * 10) : ℤ) / 10

/-- Python `f"{n:04d}"`: decimal digits left-padded with zeros to width 4. -/
def pad4 (n : Nat) : String :=
  let s := toString n
  String.mk (List.replicate (4 - s.length) '0') ++ s

/-- The `equipment_types` dict of `generate_assets`, in insertion order. -/
def equipment_types : List (String × Nat) :=
  [("Pump", 30), ("Compressor", 10), ("Turbine", 5), ("Heat Exchanger", 10),
   ("Tank", 10), ("Vessel", 5), ("Pipeline", 15), ("Motor", 10),
   ("Control Panel", 5), ("Sensor", 40)]

/-- The flat sequence of types visited by the nested generation loops. -/
def assetTypes : List String :=
  equipment_types.flatMap (fun p => List.replicate p.2 p.1)

/-- The dict built for `id_counter = i + 1`; asset `i` (0-based) consumes the
nine draws `g (9*i) .. g (9*i+8)` in the order the fields are written. -/
def mkAsset (g : Nat → Nat) (i : Nat) (eq_type : String) : Asset where
  assetID := "A" ++ pad4 (i + 1)
  type := eq_type
  location := "Zone " ++ randChoice ["A", "B", "C", "D"] (g (9 * i))
  ageYears := randint 1 20 (g (9 * i + 1))
  lastMaintDaysAgo := randint 30 900 (g (9 * i + 2))
  degradationPct := round2 (uniform 10 90 (g (9 * i + 3)))
  status := randChoice ["Operational", "Under Maintenance", "Standby"] (g (9 * i + 4))
  vibration := round2 (uniform (1 / 10) 5 (g (9 * i + 5)))
  temperatureC := round1 (uniform 30 120 (g (9 * i + 6)))
  corrosionLevel := round2 (uniform 0 1 (g (9 * i + 7)))
  rulMonths := randint 1 36 (g (9 * i + 8))

/-- `generate_assets()`: one row per visit of the nested loops, `id_counter`
starting at 1 and increasing by one per row. -/
def generate_assets (g : Nat → Nat) : List Asset :=
  (List.range assetTypes.length).map (fun i => mkAsset g i (assetTypes.getD i ""))

/-- `genai_advisory(prompt)`: the external chat-completion call is abstracted
as `call : String → Except String String` (response text or raised message).
The `try` returns the trimmed response; the `except` formats the error. -/
def genai_advisory (call : String → Except String String) (prompt : String) : String :=
  match call prompt with
  | .ok response => response.trim
  | .error e => "⚠️ GenAI Error: " ++ e

/-- `get_equipment_cost(eq_type)`: the dict literal samples all ten ranges
(one draw each, in source order) and then `.get`s with default 10000. -/
def get_equipment_cost (g : Nat → Nat) (eq_type : String) : Nat :=
  let catalog : List (String × Nat) :=
    [("Pump", randint 5000 15000 (g 0)),
     ("Compressor", randint 20000 60000 (g 1)),
     ("Turbine", randint 40000 120000 (g 2)),
     ("Tank", randint 15000 40000 (g 3)),
     ("Sensor", randint 500 3000 (g 4)),
     ("Pipeline", randint 10000 30000 (g 5)),
     ("Motor", randint 8000 20000 (g 6)),
     ("Control Panel", randint 5000 15000 (g 7)),
     ("Heat Exchanger", randint 10000 25000 (g 8)),
     ("Vessel", randint 12000 35000 (g 9))]
  (catalog.lookup eq_type).getD 10000

/-- The ten keys of the cost catalog (and of `equipment_types`). -/
def knownTypes : List String :=
  ["Pump", "Compressor", "Turbine", "Tank", "Sensor", "Pipeline", "Motor",
   "Control Panel", "Heat Exchanger", "Vessel"]

/-- `color_row` (tab 1): one style string per cell of the 11-column row. -/
def color_row (rul : Nat) : List String :=
  if rul ≤ 3 then List.replicate 11 "background-color: red"
  else if rul ≤ 6 then List.replicate 11 "background-color: yellow"
  else List.replicate 11 "background-color: lightgreen"

/-- `highlight_lifespan` (tab 2): same thresholds, blank style when safe. -/
def highlight_lifespan (rul : Nat) : List String :=
  if rul ≤ 3 then List.replicate 11 "background-color: red"
  else if rul ≤ 6 then List.replicate 11 "background-color: yellow"
  else List.replicate 11 ""

/-- Insert into a list kept in descending `key` order. -/
def insertDesc (key : Asset → ℚ) (a : Asset) : List Asset → List Asset
  | [] => [a]
  | b :: l => if key b < key a then a :: b :: l else b :: insertDesc key a l

/-- `df.sort_values(key, ascending=False)`: sort by `key` descending. -/
def sortDesc (key : Asset → ℚ) : List Asset → List Asset
  | [] => []
  | a :: l => insertDesc key a (sortDesc key l)

/-- `assets_df.sort_values("Corrosion Level", ascending=False).head(5)`. -/
def top5ByCorrosion (df : List Asset) : List Asset :=
  (sortDesc (fun a => a.corrosionLevel) df).take 5

/-- `assets_df.sort_values("Degradation %", ascending=False).head(5)`. -/
def top5ByDegradation (df : List Asset) : List Asset :=
  (sortDesc (fun a => a.degradationPct) df).take 5

/-- `assets_df[assets_df["RUL (months)"] <= 6]`. -/
def filterLowRul (df : List Asset) : List Asset :=
  df.filter (fun a => a.rulMonths ≤ 6)

/-- Numeric rendering inside f-strings, abstracted as the rational printer. -/
def ratStr (q : ℚ) : String := toString q

/-- The lifespan-tab prompt template (tab 2), rendered from one row. -/
def lifespanPrompt (a : Asset) : String :=
  "Asset ID: " ++ a.assetID ++
  "\nType: " ++ a.type ++
  "\nAge: " ++ toString a.ageYears ++ " years" ++
  "\nDegradation: " ++ ratStr a.degradationPct ++ "%" ++
  "\nVibration: " ++ ratStr a.vibration ++
  "\nTemperature: " ++ ratStr a.temperatureC ++ " deg C" ++
  "\nCorrosion Level: " ++ ratStr a.corrosionLevel ++
  "\nRUL: " ++ toString a.rulMonths ++ " months" ++
  "\nExplain why this asset\x27s RUL is low and suggest next steps."

/-- Tab 2 updates the module-level `prompt` variable: it is (re)bound only
inside the `if not low_rul_df.empty` branch, from one sampled low-RUL row.
`none` models the name being unbound. -/
def tab2PromptVar (s : Nat) (df : List Asset) (promptVar : Option String) : Option String :=
  if (filterLowRul df).isEmpty then promptVar
  else some (lifespanPrompt
    ((filterLowRul df).getD (s % (filterLowRul df).length) default))

/-- Tab 3 loop: for each of the top-5 corroding rows it calls
`genai_advisory(prompt)` on the module-level `prompt` variable (not on a
prompt built from the row).  A `none` prompt is an unbound name, so the
call fails instead of producing an advisory. -/
def tab3Run (call : String → Except String String) (df : List Asset)
    (promptVar : Option String) : Option (List String) :=
  (top5ByCorrosion df).mapM (fun _ => promptVar.map (fun p => genai_advisory call p))

/-- Tab 4 loop: same shape over the top-5 degraded rows, again reading the
module-level `prompt` variable. -/
def tab4Run (call : String → Except String String) (df : List Asset)
    (promptVar : Option String) : Option (List String) :=
  (top5ByDegradation df).mapM (fun _ => promptVar.map (fun p => genai_advisory call p))

/-- The prompt argument handed to `genai_advisory` in each iteration of the
tab-3 loop: always the module-level `prompt` variable, never the row. -/
def tab3PromptsSent (df : List Asset) (promptVar : Option String) : List (Option String) :=
  (top5ByCorrosion df).map (fun _ => promptVar)

/-- The prompt argument handed to `genai_advisory` in each iteration of the
tab-4 loop: always the module-level `prompt` variable, never the row. -/
def tab4PromptsSent (df : List Asset) (promptVar : Option String) : List (Option String) :=
  (top5ByDegradation df).map (fun _ => promptVar)

/-- A row of the cost-forecast frame after the two column assignments. -/
structure CostRow where
  asset : Asset
  replacementCost : Nat
  replaceByDayOffset : Nat
  deriving DecidableEq, Repr

/-- `low_rul["Type"].apply(get_equipment_cost)` plus the `Replace By`
column: row `i` of the filtered frame gets its own cost sample (each call
consumes the ten draws `g (10*i) .. g (10*i+9)`) and a replace-by date of
`RUL * 30` days from today. -/
def tab7CostRows (g : Nat → Nat) (rows : List Asset) : List CostRow :=
  rows.enum.map (fun p =>
    { asset := p.2
      replacementCost := get_equipment_cost (fun k => g (10 * p.1 + k)) p.2.type
      replaceByDayOffset := p.2.rulMonths * 30 })

/-- Tab 7: on a nonempty filtered set, the prompt embeds the sum of the
`Replacement Cost ($)` column; on an empty one no prompt is built. -/
def tab7Prompt (g : Nat → Nat) (df : List Asset) : Option String :=
  if (filterLowRul df).isEmpty then none
  else
    some ("In the next 6 months, assets totaling $" ++
      toString (((tab7CostRows g (filterLowRul df)).map
        (fun r => r.replacementCost)).sum) ++
      " are due for replacement. Provide a capital planning summary.")

/-- Tab 7 as a state transformer on the shared table: pandas boolean-mask
indexing copies, so the column assignments extend the local copy and the
shared table is left unchanged. -/
def tab7Run (g : Nat → Nat) (df : List Asset) :
    (Option String × List CostRow) × List Asset :=
  ((tab7Prompt g df, tab7CostRows g (filterLowRul df)), df)

/-- How each panel routes an advisory string to the display surface. -/
inductive Display
  | info
  | warning
  | error
  | success
  deriving DecidableEq, Repr

/-- Substring test, Python `pat in s`. -/
def containsSub (s pat : String) : Bool :=
  (List.range (s.data.length + 1)).any (fun i => pat.data.isPrefixOf (s.data.drop i))

/-- Tab 2 renders the advisory with `st.info`, whatever the string is. -/
def tab2Display (_advisory : String) : Display := Display.info

/-- Tab 3 renders each advisory with `st.warning`. -/
def tab3Display (_advisory : String) : Display := Display.warning

/-- Tab 4 renders each advisory with `st.error`. -/
def tab4Display (_advisory : String) : Display := Display.error

/-- Tab 5 renders the summary with `st.success`. -/
def tab5Display (_advisory : String) : Display := Display.success

/-- Tab 6 renders the advisory with `st.info`. -/
def tab6Display (_advisory : String) : Display := Display.info

/-- Tab 7 renders the advisory with `st.success`. -/
def tab7Display (_advisory : String) : Display := Display.success

/-- Tab 8 branches on the warning marker: `st.error` if `"⚠️" in advisory`
else `st.info`. -/
def tab8Display (advisory : String) : Display :=
  if containsSub advisory "⚠️" then Display.error else Display.info

/-! ## Helper lemmas -/

theorem randint_ge (lo hi s : Nat) : lo ≤ randint lo hi s :=
  Nat.le_add_right lo _

theorem randint_le (lo hi s : Nat) (h : lo ≤ hi) : randint lo hi s ≤ hi := by
  unfold randint
  have hlt : s % (hi - lo + 1) < hi - lo + 1 := Nat.mod_lt _ (Nat.succ_pos _)
  omega

theorem unitFrac_nonneg (s : Nat) : 0 ≤ unitFrac s := by
  unfold unitFrac
  positivity

theorem unitFrac_lt_one (s : Nat) : unitFrac s < 1 := by
  unfold unitFrac
  rw [div_lt_one (by norm_num)]
  exact_mod_cast Nat.mod_lt s (by norm_num)

theorem uniform_ge {a b : ℚ} (hab : a ≤ b) (s : Nat) : a ≤ uniform a b s := by
  unfold uniform
  nlinarith [unitFrac_nonneg s]

theorem uniform_le {a b : ℚ} (hab : a ≤ b) (s : Nat) : uniform a b s ≤ b := by
  unfold uniform
  nlinarith [unitFrac_nonneg s, unitFrac_lt_one s]

theorem le_round_of_le {c : ℤ} {x : ℚ} (h : (c : ℚ) ≤ x) : c ≤ round x := by
  rw [round_eq]
  exact Int.le_floor.2 (by linarith)

theorem round_le_of_le {c : ℤ} {x : ℚ} (h : x ≤ (c : ℚ)) : round x ≤ c := by
  rw [round_eq]
  calc ⌊x + 1 / 2⌋ ≤ ⌊(c : ℚ) + 1 / 2⌋ := Int.floor_le_floor (by linarith)
    _ = c := by rw [add_comm, Int.floor_add_int]; norm_num

theorem round2_bounds (ca cb : ℤ) {a b : ℚ} (hca : (ca : ℚ) = a * 100)
    (hcb : (cb : ℚ) = b * 100) {x : ℚ} (h1 : a ≤ x) (h2 : x ≤ b) :
    a ≤ round2 x ∧ round2 x ≤ b ∧ ∃ z : ℤ, round2 x * 100 = z := by
  have hlo : (ca : ℚ) ≤ (round (x * 100) : ℤ) :=
    Int.cast_le.2 (le_round_of_le (by rw [hca]; nlinarith))
  have hhi : ((round (x * 100) : ℤ) : ℚ) ≤ (cb : ℚ) :=
    Int.cast_le.2 (round_le_of_le (by rw [hcb]; nlinarith))
  refine ⟨?_, ?_, ⟨round (x * 100), by unfold round2; field_simp⟩⟩
  · unfold round2; rw [hca] at hlo; linarith
  · unfold round2; rw [hcb] at hhi; linarith

theorem round1_bounds (ca cb : ℤ) {a b : ℚ} (hca : (ca : ℚ) = a * 10)
    (hcb : (cb : ℚ) = b * 10) {x : ℚ} (h1 : a ≤ x) (h2 : x ≤ b) :
    a ≤ round1 x ∧ round1 x ≤ b ∧ ∃ z : ℤ, round1 x * 10 = z := by
  have hlo : (ca : ℚ) ≤ (round (x * 10) : ℤ) :=
    Int.cast_le.2 (le_round_of_le (by rw [hca]; nlinarith))
  have hhi : ((round (x * 10) : ℤ) : ℚ) ≤ (cb : ℚ) :=
    Int.cast_le.2 (round_le_of_le (by rw [hcb]; nlinarith))
  refine ⟨?_, ?_, ⟨round (x * 10), by unfold round1; field_simp⟩⟩
  · unfold round1; rw [hca] at hlo; linarith
  · unfold round1; rw [hcb] at hhi; linarith

theorem generate_assets_length (g : Nat → Nat) : (generate_assets g).length = 140 := by
  simp [generate_assets]
  rfl

theorem generate_assets_mem {g : Nat → Nat} {a : Asset} (ha : a ∈ generate_assets g) :
    ∃ i, i < 140 ∧ a = mkAsset g i (assetTypes.getD i "") := by
  unfold generate_assets at ha
  obtain ⟨i, hi, rfl⟩ := List.mem_map.1 ha
  exact ⟨i, by simpa using List.mem_range.1 hi, rfl⟩

theorem insertDesc_length (key : Asset → ℚ) (a : Asset) (l : List Asset) :
    (insertDesc key a l).length = l.length + 1 := by
  induction l with
  | nil => rfl
  | cons b t ih =>
    unfold insertDesc
    by_cases h : key b < key a
    · simp [h]
    · simp [h, ih]

theorem sortDesc_length (key : Asset → ℚ) (l : List Asset) :
    (sortDesc key l).length = l.length := by
  induction l with
  | nil => rfl
  | cons a t ih => simp [sortDesc, insertDesc_length, ih]

/-- Boolean adjacent strict-increase check on strings. -/
def chainLtB : List String → Bool
  | [] => true
  | [_] => true
  | a :: b :: l => decide (a.toList < b.toList) && chainLtB (b :: l)

theorem chainLtB_chain' : ∀ l : List String, chainLtB l = true → List.Chain' (· < ·) l
  | [] => fun _ => List.chain'_nil
  | [a] => fun _ => List.chain'_singleton a
  | a :: b :: t => fun h => by
    simp only [chainLtB, Bool.and_eq_true, decide_eq_true_eq] at h
    exact List.chain'_cons.2
      ⟨String.lt_iff_toList_lt.2 h.1, chainLtB_chain' (b :: t) h.2⟩

theorem mapM_const_none {α β : Type} (l : List α) (h : l ≠ []) :
    l.mapM (fun _ => (none : Option β)) = none := by
  cases l with
  | nil => exact absurd rfl h
  | cons a t => rfl

/-! ## C1: risk classification thresholds -/

/-- The three risk classes named by the spec. -/
inductive Risk
  | critical
  | warning
  | safe
  deriving DecidableEq, Repr

/-- Modelled from the spec text: `RULMonths ≤ 3` is critical, `3 < RULMonths ≤ 6`
is warning, `RULMonths > 6` is safe. -/
def riskSpec (rul : Nat) : Risk :=
  if rul ≤ 3 then Risk.critical
  else if 3 < rul ∧ rul ≤ 6 then Risk.warning
  else Risk.safe

/-- The color the spec assigns to each class. -/
def riskColor : Risk → String
  | Risk.critical => "background-color: red"
  | Risk.warning => "background-color: yellow"
  | Risk.safe => "background-color: lightgreen"

/-- C1: risk classification is a total function of RULMonths with inclusive
boundaries; `color_row` styles every cell with the class color, and
`highlight_lifespan` applies the same thresholds (blank style when safe);
the boundary values 3, 4, 6, 7 classify as critical, warning, warning, safe. -/
theorem C1_risk_classification (rul : Nat) :
    color_row rul = List.replicate 11 (riskColor (riskSpec rul)) ∧
    highlight_lifespan rul =
      List.replicate 11
        (if riskSpec rul = Risk.safe then "" else riskColor (riskSpec rul)) ∧
    riskSpec 3 = Risk.critical ∧ riskSpec 4 = Risk.warning ∧
    riskSpec 6 = Risk.warning ∧ riskSpec 7 = Risk.safe := by
  refine ⟨?_, ?_, by decide, by decide, by decide, by decide⟩ <;>
  · by_cases h1 : rul ≤ 3
    · simp [color_row, highlight_lifespan, riskSpec, riskColor, h1]
    · by_cases h2 : rul ≤ 6
      · have h3 : 3 < rul := Nat.lt_of_not_le (by simpa using h1)
        simp [color_row, highlight_lifespan, riskSpec, riskColor, h1, h2, h3]
      · simp [color_row, highlight_lifespan, riskSpec, riskColor, h1, h2]

/-! ## C2: shape of the generated register -/

/-- C2: for every random source, `generate_assets` yields exactly 140 rows,
the types appear in the fixed order with the fixed per-type counts, the
`i`-th AssetID is `"A"` followed by `i+1` zero-padded to 4 digits, and the
AssetIDs are strictly increasing (hence unique, no gaps). -/
theorem C2_generate_assets_shape (g : Nat → Nat) :
    (generate_assets g).length = 140 ∧
    (generate_assets g).map (fun a => a.type) = assetTypes ∧
    (((generate_assets g).map fun a => a.type).count "Pump" = 30 ∧
      ((generate_assets g).map fun a => a.type).count "Compressor" = 10 ∧
      ((generate_assets g).map fun a => a.type).count "Turbine" = 5 ∧
      ((generate_assets g).map fun a => a.type).count "Heat Exchanger" = 10 ∧
      ((generate_assets g).map fun a => a.type).count "Tank" = 10 ∧
      ((generate_assets g).map fun a => a.type).count "Vessel" = 5 ∧
      ((generate_assets g).map fun a => a.type).count "Pipeline" = 15 ∧
      ((generate_assets g).map fun a => a.type).count "Motor" = 10 ∧
      ((generate_assets g).map fun a => a.type).count "Control Panel" = 5 ∧
      ((generate_assets g).map fun a => a.type).count "Sensor" = 40) ∧
    (generate_assets g).map (fun a => a.assetID) =
      (List.range 140).map (fun i => "A" ++ pad4 (i + 1)) ∧
    List.Chain' (· < ·) ((generate_assets g).map fun a => a.assetID) ∧
    ((generate_assets g).map fun a => a.assetID).Nodup := by
  refine ⟨generate_assets_length g, rfl,
    ⟨?_, ?_, ?_, ?_, ?_, ?_, ?_, ?_, ?_, ?_⟩, rfl, ?_, ?_⟩
  · exact (by decide : assetTypes.count "Pump" = 30)
  · exact (by decide : assetTypes.count "Compressor" = 10)
  · exact (by decide : assetTypes.count "Turbine" = 5)
  · exact (by decide : assetTypes.count "Heat Exchanger" = 10)
  · exact (by decide : assetTypes.count "Tank" = 10)
  · exact (by decide : assetTypes.count "Vessel" = 5)
  · exact (by decide : assetTypes.count "Pipeline" = 15)
  · exact (by decide : assetTypes.count "Motor" = 10)
  · exact (by decide : assetTypes.count "Control Panel" = 5)
  · exact (by decide : assetTypes.count "Sensor" = 40)
  · exact chainLtB_chain'
      ((List.range 140).map fun i => "A" ++ pad4 (i + 1)) (by rfl)
  · exact List.Pairwise.imp (fun h => ne_of_lt h)
      (List.chain'_iff_pairwise.1 (chainLtB_chain'
        ((List.range 140).map fun i => "A" ++ pad4 (i + 1)) (by rfl)))

/-! ## C4: the advisory client never propagates a failure -/

/-- C4: for every prompt and every behavior of the underlying call,
`genai_advisory` returns the trimmed model output on success, and on any
raised error returns the string `"⚠️ GenAI Error: "` followed by the
underlying message (so the result starts with the warning marker and
contains the message); it is a total function, never propagating the
failure. -/
theorem C4_genai_advisory_total (call : String → Except String String) (prompt : String) :
    (∃ t, call prompt = Except.ok t ∧ genai_advisory call prompt = t.trim) ∨
    (∃ e, call prompt = Except.error e ∧
      genai_advisory call prompt = "⚠️ GenAI Error: " ++ e) := by
  cases h : call prompt with
  | ok t => exact Or.inl ⟨t, rfl, by unfold genai_advisory; rw [h]⟩
  | error e => exact Or.inr ⟨e, rfl, by unfold genai_advisory; rw [h]⟩

/-! ## C5: cost catalog ranges and unknown-type fallback -/

/-- C5: for every random source, `get_equipment_cost` returns a value inside
the declared range of each known type, and exactly 10000 for every string
that is not one of the ten known types. -/
theorem C5_cost_catalog (g : Nat → Nat) :
    ((5000 ≤ get_equipment_cost g "Pump" ∧ get_equipment_cost g "Pump" ≤ 15000) ∧
     (20000 ≤ get_equipment_cost g "Compressor" ∧
       get_equipment_cost g "Compressor" ≤ 60000) ∧
     (40000 ≤ get_equipment_cost g "Turbine" ∧
       get_equipment_cost g "Turbine" ≤ 120000) ∧
     (15000 ≤ get_equipment_cost g "Tank" ∧ get_equipment_cost g "Tank" ≤ 40000) ∧
     (500 ≤ get_equipment_cost g "Sensor" ∧ get_equipment_cost g "Sensor" ≤ 3000) ∧
     (10000 ≤ get_equipment_cost g "Pipeline" ∧
       get_equipment_cost g "Pipeline" ≤ 30000) ∧
     (8000 ≤ get_equipment_cost g "Motor" ∧ get_equipment_cost g "Motor" ≤ 20000) ∧
     (5000 ≤ get_equipment_cost g "Control Panel" ∧
       get_equipment_cost g "Control Panel" ≤ 15000) ∧
     (10000 ≤ get_equipment_cost g "Heat Exchanger" ∧
       get_equipment_cost g "Heat Exchanger" ≤ 25000) ∧
     (12000 ≤ get_equipment_cost g "Vessel" ∧
       get_equipment_cost g "Vessel" ≤ 35000)) ∧
    ∀ t, t ∉ knownTypes → get_equipment_cost g t = 10000 := by
  constructor
  · exact ⟨⟨randint_ge 5000 15000 (g 0), randint_le 5000 15000 (g 0) (by norm_num)⟩,
      ⟨randint_ge 20000 60000 (g 1), randint_le 20000 60000 (g 1) (by norm_num)⟩,
      ⟨randint_ge 40000 120000 (g 2), randint_le 40000 120000 (g 2) (by norm_num)⟩,
      ⟨randint_ge 15000 40000 (g 3), randint_le 15000 40000 (g 3) (by norm_num)⟩,
      ⟨randint_ge 500 3000 (g 4), randint_le 500 3000 (g 4) (by norm_num)⟩,
      ⟨randint_ge 10000 30000 (g 5), randint_le 10000 30000 (g 5) (by norm_num)⟩,
      ⟨randint_ge 8000 20000 (g 6), randint_le 8000 20000 (g 6) (by norm_num)⟩,
      ⟨randint_ge 5000 15000 (g 7), randint_le 5000 15000 (g 7) (by norm_num)⟩,
      ⟨randint_ge 10000 25000 (g 8), randint_le 10000 25000 (g 8) (by norm_num)⟩,
      ⟨randint_ge 12000 35000 (g 9), randint_le 12000 35000 (g 9) (by norm_num)⟩⟩
  · intro t ht
    simp only [knownTypes, List.mem_cons, List.not_mem_nil, or_false, not_or] at ht
    obtain ⟨h1, h2, h3, h4, h5, h6, h7, h8, h9, h10⟩ := ht
    simp [get_equipment_cost, List.lookup, beq_eq_false_iff_ne.2 h1,
      beq_eq_false_iff_ne.2 h2, beq_eq_false_iff_ne.2 h3, beq_eq_false_iff_ne.2 h4,
      beq_eq_false_iff_ne.2 h5, beq_eq_false_iff_ne.2 h6, beq_eq_false_iff_ne.2 h7,
      beq_eq_false_iff_ne.2 h8, beq_eq_false_iff_ne.2 h9, beq_eq_false_iff_ne.2 h10]

/-- Witness for C5 at a concrete source and a concrete unknown type. -/
theorem C5_cost_catalog_witness :
    "Widget" ∉ knownTypes ∧ get_equipment_cost (fun _ => 0) "Widget" = 10000 :=
  ⟨by decide, (C5_cost_catalog (fun _ => 0)).2 "Widget" (by decide)⟩

/-! ## C6: generated field bounds -/

/-- C6: every record of every run has its numeric fields within the declared
bounds, with the declared decimal granularity (2 decimals for Degradation,
Vibration and Corrosion, 1 decimal for Temperature). -/
theorem C6_field_bounds (g : Nat → Nat) :
    ∀ a ∈ generate_assets g,
      (1 ≤ a.ageYears ∧ a.ageYears ≤ 20) ∧
      (10 ≤ a.degradationPct ∧ a.degradationPct ≤ 90 ∧
        ∃ z : ℤ, a.degradationPct * 100 = z) ∧
      (1 / 10 ≤ a.vibration ∧ a.vibration ≤ 5 ∧ ∃ z : ℤ, a.vibration * 100 = z) ∧
      (30 ≤ a.temperatureC ∧ a.temperatureC ≤ 120 ∧
        ∃ z : ℤ, a.temperatureC * 10 = z) ∧
      (0 ≤ a.corrosionLevel ∧ a.corrosionLevel ≤ 1 ∧
        ∃ z : ℤ, a.corrosionLevel * 100 = z) ∧
      (1 ≤ a.rulMonths ∧ a.rulMonths ≤ 36) := by
  intro a ha
  obtain ⟨i, hi, rfl⟩ := generate_assets_mem ha
  refine ⟨⟨randint_ge 1 20 _, randint_le 1 20 _ (by norm_num)⟩, ?_, ?_, ?_, ?_,
    ⟨randint_ge 1 36 _, randint_le 1 36 _ (by norm_num)⟩⟩
  · exact round2_bounds 1000 9000 (by norm_num) (by norm_num)
      (uniform_ge (by norm_num) _) (uniform_le (by norm_num) _)
  · exact round2_bounds 10 500 (by norm_num) (by norm_num)
      (uniform_ge (by norm_num) _) (uniform_le (by norm_num) _)
  · exact round1_bounds 300 1200 (by norm_num) (by norm_num)
      (uniform_ge (by norm_num) _) (uniform_le (by norm_num) _)
  · exact round2_bounds 0 100 (by norm_num) (by norm_num)
      (uniform_ge (by norm_num) _) (uniform_le (by norm_num) _)

/-- Witness for C6 on the first record of a concrete run. -/
theorem C6_field_bounds_witness :
    (generate_assets (fun _ => 0)).head! ∈ generate_assets (fun _ => 0) ∧
    10 ≤ ((generate_assets (fun _ => 0)).head!).degradationPct ∧
    1 ≤ ((generate_assets (fun _ => 0)).head!).rulMonths := by
  have hmem : (generate_assets (fun _ => 0)).head! ∈ generate_assets (fun _ => 0) :=
    List.head!_mem_self (by decide)
  have h := C6_field_bounds (fun _ => 0) _ hmem
  exact ⟨hmem, h.2.1.1, h.2.2.2.2.2.1⟩

/-! ## Concrete fixtures for witnesses and counterexamples -/

/-- A concrete low-RUL asset (RUL 3). -/
def assetLow : Asset where
  assetID := "A0001"
  type := "Pump"
  location := "Zone A"
  ageYears := 5
  lastMaintDaysAgo := 100
  degradationPct := 50
  status := "Operational"
  vibration := 1
  temperatureC := 80
  corrosionLevel := 0
  rulMonths := 3

/-- A concrete safe asset (RUL 12) with the top corrosion and degradation. -/
def assetHigh : Asset where
  assetID := "A0002"
  type := "Sensor"
  location := "Zone B"
  ageYears := 10
  lastMaintDaysAgo := 200
  degradationPct := 80
  status := "Standby"
  vibration := 2
  temperatureC := 90
  corrosionLevel := 1
  rulMonths := 12

/-! ## C3: the corrosion and failure-mode loops reuse a stale prompt -/

/-- C3 fails on the code: on the table `[assetLow, assetHigh]` with sample
index 0, tab 2 binds `prompt` from `assetLow`; the corrosion loop then hands
that same stale prompt to the advisory call in both iterations — including
the one for its top corroding row `assetHigh` — and the failure-mode loop
does the same; the stale prompt differs from the prompt that `assetHigh`
itself would render, so the prompt is not built from the current row. -/
theorem C3_stale_prompt_eval :
    tab2PromptVar 0 [assetLow, assetHigh] none = some (lifespanPrompt assetLow) ∧
    top5ByCorrosion [assetLow, assetHigh] = [assetHigh, assetLow] ∧
    tab3PromptsSent [assetLow, assetHigh] (some (lifespanPrompt assetLow)) =
      [some (lifespanPrompt assetLow), some (lifespanPrompt assetLow)] ∧
    top5ByDegradation [assetLow, assetHigh] = [assetHigh, assetLow] ∧
    tab4PromptsSent [assetLow, assetHigh] (some (lifespanPrompt assetLow)) =
      [some (lifespanPrompt assetLow), some (lifespanPrompt assetLow)] ∧
    lifespanPrompt assetLow ≠ lifespanPrompt assetHigh :=
  ⟨rfl, by decide, rfl, by decide, rfl, by decide⟩

/-! ## C7: the cost-forecast total -/

/-- C7: whenever the filtered set is nonempty, the dollar total embedded in
the cost-forecast prompt is the sum of one `get_equipment_cost` sample per
filtered asset, applied to that asset's Type. -/
theorem C7_cost_total (g : Nat → Nat) (df : List Asset)
    (h : filterLowRul df ≠ []) :
    tab7Prompt g df =
      some ("In the next 6 months, assets totaling $" ++
        toString (((filterLowRul df).enum.map (fun p =>
          get_equipment_cost (fun k => g (10 * p.1 + k)) p.2.type)).sum) ++
        " are due for replacement. Provide a capital planning summary.") := by
  have hempty : (filterLowRul df).isEmpty = false := by
    simpa [List.isEmpty_iff] using h
  have hmap : (tab7CostRows g (filterLowRul df)).map (fun r => r.replacementCost)
      = (filterLowRul df).enum.map (fun p =>
          get_equipment_cost (fun k => g (10 * p.1 + k)) p.2.type) := by
    unfold tab7CostRows
    rw [List.map_map]
    rfl
  unfold tab7Prompt
  rw [hempty, hmap]
  simp

/-- Witness for C7 on a one-asset table and the zero source: a single Pump
with RUL 3 is due, its cost sample is 5000, and the prompt embeds $5000. -/
theorem C7_cost_total_witness :
    filterLowRul [assetLow] ≠ [] ∧
    tab7Prompt (fun _ => 0) [assetLow] =
      some ("In the next 6 months, assets totaling $5000 are due for replacement. Provide a capital planning summary.") := by
  refine ⟨by decide, ?_⟩
  rw [C7_cost_total (fun _ => 0) [assetLow] (by decide)]
  rfl

/-! ## C8: the asset table is generated once and never modified -/

/-- The script body after `assets_df = generate_assets()`: tabs 0–6 and 8
only read the shared table; tab 7 is the only one that assigns columns, and
pandas boolean-mask indexing hands it a copy, which `tab7Run` models by
returning the shared table unchanged next to the extended copy. -/
def scriptFinalTable (g : Nat → Nat) : List Asset :=
  (tab7Run g (generate_assets g)).2

/-- C8: the table left after all panels run is the generated table, the cost
panel leaves the shared table unchanged, and the rows of its extended copy
carry the filtered assets with all fields intact. -/
theorem C8_table_immutable (g : Nat → Nat) :
    scriptFinalTable g = generate_assets g ∧
    (tab7Run g (generate_assets g)).2 = generate_assets g ∧
    (tab7CostRows g (filterLowRul (generate_assets g))).map (fun r => r.asset)
      = filterLowRul (generate_assets g) := by
  refine ⟨rfl, rfl, ?_⟩
  unfold tab7CostRows
  rw [List.map_map]
  exact List.enum_map_snd _

/-! ## C9: display routing does branch on the advisory string (tab 8) -/

/-- C9 is false as stated: the work-order view routes an advisory containing
the warning marker to the error display and any other advisory to the info
display, so its routing does distinguish the two. -/
theorem C9_counterexample :
    ¬ ∀ s t : String, tab8Display s = tab8Display t := fun h =>
  absurd (h "⚠️ GenAI Error: boom" "All good") (by decide)

/-- C9 amended: every view except the work-order panel routes the advisory
string to a fixed display independent of its content; the work-order panel
inspects the string for the marker `"⚠️"` and routes to the error display
when present, to the info display otherwise. -/
theorem C9_amended_routing (s t : String) :
    tab2Display s = tab2Display t ∧ tab3Display s = tab3Display t ∧
    tab4Display s = tab4Display t ∧ tab5Display s = tab5Display t ∧
    tab6Display s = tab6Display t ∧ tab7Display s = tab7Display t ∧
    (containsSub s "⚠️" = true → tab8Display s = Display.error) ∧
    (containsSub s "⚠️" = false → tab8Display s = Display.info) := by
  refine ⟨rfl, rfl, rfl, rfl, rfl, rfl, ?_, ?_⟩
  · intro h; simp [tab8Display, h]
  · intro h; simp [tab8Display, h]

/-- Witness for the amended C9 at concrete advisory strings. -/
theorem C9_amended_routing_witness :
    tab8Display "⚠️ GenAI Error: x" = Display.error ∧
    tab8Display "ok" = Display.info :=
  ⟨(C9_amended_routing "⚠️ GenAI Error: x" "ok").2.2.2.2.2.2.1 (by decide),
   (C9_amended_routing "ok" "x").2.2.2.2.2.2.2 (by decide)⟩

/-! ## C10: unbound prompt when no asset has RUL ≤ 6 -/

theorem take5_sortDesc_ne_nil (key : Asset → ℚ) {df : List Asset} (h : df ≠ []) :
    (sortDesc key df).take 5 ≠ [] := by
  intro hnil
  have hlen := congrArg List.length hnil
  rw [List.length_take, sortDesc_length] at hlen
  simp only [List.length_nil, Nat.min_eq_zero_iff] at hlen
  rcases hlen with h5 | h0
  · exact absurd h5 (by norm_num)
  · exact h (List.eq_nil_of_length_eq_zero h0)

/-- C10: on every nonempty table whose assets all have RUL > 6, tab 2 leaves
the module-level `prompt` unbound, and the corrosion and failure-mode loops
then fail on an unbound name instead of producing advisories: in the
embedding the prompt is `none` and both loops return `none`. -/
theorem C10_unbound_prompt (call : String → Except String String) (s : Nat)
    (df : List Asset) (hne : df ≠ []) (hall : ∀ a ∈ df, 6 < a.rulMonths) :
    tab2PromptVar s df none = none ∧
    tab3Run call df (tab2PromptVar s df none) = none ∧
    tab4Run call df (tab2PromptVar s df none) = none := by
  have hfil : filterLowRul df = [] := by
    unfold filterLowRul
    rw [List.filter_eq_nil_iff]
    intro a ha
    simpa using Nat.not_le.2 (hall a ha)
  have h2 : tab2PromptVar s df none = none := by
    unfold tab2PromptVar
    rw [hfil]
    rfl
  refine ⟨h2, ?_, ?_⟩
  · rw [h2]
    exact mapM_const_none _ (take5_sortDesc_ne_nil _ hne)
  · rw [h2]
    exact mapM_const_none _ (take5_sortDesc_ne_nil _ hne)

/-- Witness for C10 on a concrete one-asset table with RUL 12. -/
theorem C10_unbound_prompt_witness :
    tab2PromptVar 0 [assetHigh] none = none ∧
    tab3Run (fun _ => Except.error "down") [assetHigh]
      (tab2PromptVar 0 [assetHigh] none) = none ∧
    tab4Run (fun _ => Except.error "down") [assetHigh]
      (tab2PromptVar 0 [assetHigh] none) = none :=
  C10_unbound_prompt (fun _ => Except.error "down") 0 [assetHigh]
    (by decide) (by decide)

end AIM
